import Mathlib

/-!
Verification of the WalmartAnalyzer alerting pipeline.

Each definition below is a shallow embedding of a function of the Python
sources (`weather_engine.py`, `ecommerce_engine.py`, `inventory_engine.py`,
`logistics_engine.py`, `supplier_engine.py`, `local_news_engine.py`,
`app.py`).  Numeric signals (floats in the source) are embedded as `Rat`;
missing / unparseable values (`NaN` after `pd.to_numeric(..., errors =
coerce)`) are embedded as `none`.  Sources of nondeterminism are made
explicit parameters: the stream of values returned by `uuid.uuid4()` /
`generate_alert_id()` becomes an explicit id stream `ids : Nat → String`
indexed by a running counter, `pd.Timestamp.now()` becomes an explicit
argument, and the random choices of `DataFrame.sample` / `random.shuffle`
become an explicit selection function constrained by the documented
contract of those primitives.
-/

/-- One row of the shared alert log `data/alerts.csv`
(columns `alert_id, alert_title, category, severity, timestamp`). -/
structure AlertRecord where
  alert_id : String
  alert_title : String
  category : String
  severity : String
  timestamp : Nat
deriving DecidableEq, Repr

/-- `log_alert` from `weather_engine.py` (replicated verbatim in every
engine module).  The generated id (`generate_alert_id()` in the source) and
the creation instant (`pd.Timestamp.now()`) are passed in explicitly.
The source's `if alerts_df.empty` branch produces the same list as the
`pd.concat` branch (appending one record to an empty log), so both
branches collapse to a single append. -/
def log_alert (alerts : List AlertRecord) (alert_title category severity : String)
    (newId : String) (ts : Nat) : List AlertRecord × String :=
  (alerts ++ [⟨newId, alert_title, category, severity, ts⟩], newId)

/-- An engine run's sequence of `log_alert` calls: each call draws the next
id from the stream `ids` at the running counter `k`.  The `(title,
category, severity)` triples are the alerts the run generates, in
generation order. -/
def logAlerts (ids : Nat → String) (ts : Nat) :
    List (String × String × String) → List AlertRecord → Nat → List AlertRecord
  | [], alerts, _ => alerts
  | (t, c, s) :: rest, alerts, k =>
      logAlerts ids ts rest (log_alert alerts t c s (ids k) ts).1 (k + 1)

/-- The records freshly created for the triples `news`, starting at stream
position `k`. -/
def mkRecords (ids : Nat → String) (ts : Nat) :
    Nat → List (String × String × String) → List AlertRecord
  | _, [] => []
  | k, (t, c, s) :: rest => ⟨ids k, t, c, s, ts⟩ :: mkRecords ids ts (k + 1) rest

/-! ## `generate_alert_id` (all engine modules)

`generate_alert_id()` draws a random 128-bit UUID (`uuid.uuid4()`) and
returns its URL-safe Base64 encoding with the padding characters
stripped.  The 16 UUID bytes, read big-endian as a natural number
`u < 2^128`, are encoded as 22 six-bit groups covering the 132-bit string
obtained by appending 4 zero bits, i.e. the base-64 digits of `u * 16`. -/

/-- The URL-safe Base64 alphabet used by `base64.urlsafe_b64encode`. -/
def B64_ALPHABET : List Char :=
  ['A', 'B', 'C', 'D', 'E', 'F', 'G', 'H', 'I', 'J', 'K', 'L', 'M',
   'N', 'O', 'P', 'Q', 'R', 'S', 'T', 'U', 'V', 'W', 'X', 'Y', 'Z',
   'a', 'b', 'c', 'd', 'e', 'f', 'g', 'h', 'i', 'j', 'k', 'l', 'm',
   'n', 'o', 'p', 'q', 'r', 's', 't', 'u', 'v', 'w', 'x', 'y', 'z',
   '0', '1', '2', '3', '4', '5', '6', '7', '8', '9', '-', '_']

/-- The character for one six-bit group. -/
def b64digit (n : Nat) : Char := B64_ALPHABET.getD n '?'

/-- The `w` base-64 digits of `n`, most significant first. -/
def digitsBE : Nat → Nat → List Nat
  | 0, _ => []
  | w + 1, n => digitsBE w (n / 64) ++ [n % 64]

/-- `generate_alert_id` applied to the UUID whose 16 bytes denote
`u < 2^128` big-endian: the unpadded URL-safe Base64 encoding, a 22
character string. -/
def shortId (u : Nat) : String := String.mk ((digitsBE 22 (u * 16)).map b64digit)

/-! ## String helpers

Python's `in` operator on strings is case-sensitive contiguous substring
containment; the engines lowercase the haystack first. -/

/-- `pat` occurs as a contiguous sublist of the second argument. -/
def subListOf (pat : List Char) : List Char → Bool
  | [] => pat.isEmpty
  | a :: t => pat.isPrefixOf (a :: t) || subListOf pat t

/-- Python's `pat in s` on strings. -/
def strContains (s pat : String) : Bool := subListOf pat.data s.data

/-! ## `ecommerce_engine.py` — thresholds and per-row classification -/

def CONVERSION_CRITICAL_THRESHOLD : ℚ := 8 / 1000
def CONVERSION_MEDIUM_THRESHOLD : ℚ := 12 / 1000
def CONVERSION_LOW_THRESHOLD : ℚ := 18 / 1000

def CART_ABANDONMENT_CRITICAL_THRESHOLD : ℚ := 65 / 100
def CART_ABANDONMENT_MEDIUM_THRESHOLD : ℚ := 60 / 100
def CART_ABANDONMENT_LOW_THRESHOLD : ℚ := 55 / 100

def VIEWS_CRITICAL_DROP_THRESHOLD : ℚ := 300
def VIEWS_MEDIUM_DROP_THRESHOLD : ℚ := 600
def VIEWS_LOW_DROP_THRESHOLD : ℚ := 900

def ADD_TO_CART_CRITICAL_DROP_THRESHOLD : ℚ := 15
def ADD_TO_CART_MEDIUM_DROP_THRESHOLD : ℚ := 40
def ADD_TO_CART_LOW_DROP_THRESHOLD : ℚ := 80

def HIGH_INTEREST_VIEWS_THRESHOLD : ℚ := 1000

/-- Which rule block of `ecommerce_rule_engine` produced an alert; the
blocks are distinguishable in the source by their title templates. -/
inductive EcomSignal
  | conversion
  | cartAbandonment
  | onlineViews
  | addToCart
  | promo
deriving DecidableEq, BEq, Repr

/-- One row of `data/ecommerce.csv`, restricted to the fields
`ecommerce_rule_engine` reads.  `none` stands for a missing / NaN value. -/
structure EcomRow where
  conversion_rate : Option ℚ
  cart_abandonment_rate : Option ℚ
  online_views : Option ℚ
  add_to_cart : Option ℚ
  search_term : String
  promotional_campaign_id : Option String
deriving DecidableEq

/-- An alert emitted by `ecommerce_rule_engine` for one row, identified by
its rule block and severity. -/
structure EcomAlert where
  signal : EcomSignal
  severity : String
deriving DecidableEq, BEq

/-- Rule 1 of `ecommerce_rule_engine`: conversion-rate anomalies,
`if pd.notna` guard then `if/elif/elif` banding. -/
def conversionAlerts : Option ℚ → List EcomAlert
  | none => []
  | some x =>
      if x < CONVERSION_CRITICAL_THRESHOLD then [⟨.conversion, "Critical"⟩]
      else if x < CONVERSION_MEDIUM_THRESHOLD then [⟨.conversion, "Medium"⟩]
      else if x < CONVERSION_LOW_THRESHOLD then [⟨.conversion, "Low"⟩]
      else []

/-- Rule 2: cart-abandonment-rate anomalies (higher is worse). -/
def cartAbandonmentAlerts : Option ℚ → List EcomAlert
  | none => []
  | some x =>
      if x > CART_ABANDONMENT_CRITICAL_THRESHOLD then [⟨.cartAbandonment, "Critical"⟩]
      else if x > CART_ABANDONMENT_MEDIUM_THRESHOLD then [⟨.cartAbandonment, "Medium"⟩]
      else if x > CART_ABANDONMENT_LOW_THRESHOLD then [⟨.cartAbandonment, "Low"⟩]
      else []

/-- Rule 3: drop in online views. -/
def onlineViewsAlerts : Option ℚ → List EcomAlert
  | none => []
  | some x =>
      if x < VIEWS_CRITICAL_DROP_THRESHOLD then [⟨.onlineViews, "Critical"⟩]
      else if x < VIEWS_MEDIUM_DROP_THRESHOLD then [⟨.onlineViews, "Medium"⟩]
      else if x < VIEWS_LOW_DROP_THRESHOLD then [⟨.onlineViews, "Low"⟩]
      else []

/-- Rule 4: drop in add-to-cart. -/
def addToCartAlerts : Option ℚ → List EcomAlert
  | none => []
  | some x =>
      if x < ADD_TO_CART_CRITICAL_DROP_THRESHOLD then [⟨.addToCart, "Critical"⟩]
      else if x < ADD_TO_CART_MEDIUM_DROP_THRESHOLD then [⟨.addToCart, "Medium"⟩]
      else if x < ADD_TO_CART_LOW_DROP_THRESHOLD then [⟨.addToCart, "Low"⟩]
      else []

/-- Rule 5: high-interest search term, high views, no active promotion. -/
def promoAlerts (r : EcomRow) : List EcomAlert :=
  let st := r.search_term.toLower
  if (strContains st "deal" || strContains st "best" || strContains st "discount")
      && (match r.online_views with
          | some v => decide (v > HIGH_INTEREST_VIEWS_THRESHOLD)
          | none => false)
      && (match r.promotional_campaign_id with
          | none => true
          | some p => p == "None") then
    [⟨.promo, "Low"⟩]
  else []

/-- The loop body of `ecommerce_rule_engine` for one row: the five rule
blocks evaluated in source order, alerts collected in generation order. -/
def ecommerce_rule_engine_row (r : EcomRow) : List EcomAlert :=
  conversionAlerts r.conversion_rate ++
    cartAbandonmentAlerts r.cart_abandonment_rate ++
    onlineViewsAlerts r.online_views ++
    addToCartAlerts r.add_to_cart ++
    promoAlerts r

/-! ## `supplier_engine.py` — thresholds and per-row classification -/

def OTD_CRITICAL_THRESHOLD : ℚ := 85 / 100
def OTD_MEDIUM_THRESHOLD : ℚ := 90 / 100
def OTD_LOW_THRESHOLD : ℚ := 95 / 100

def DEFECT_CRITICAL_THRESHOLD : ℚ := 3
def DEFECT_MEDIUM_THRESHOLD : ℚ := 2
def DEFECT_LOW_THRESHOLD : ℚ := 1

def QUALITY_CRITICAL_THRESHOLD : ℚ := 7
def QUALITY_MEDIUM_THRESHOLD : ℚ := 8
def QUALITY_LOW_THRESHOLD : ℚ := 85 / 10

def LEAD_TIME_CRITICAL_THRESHOLD : ℚ := 14
def LEAD_TIME_MEDIUM_THRESHOLD : ℚ := 10
def LEAD_TIME_LOW_THRESHOLD : ℚ := 7

/-- Which rule block of `supplier_rule_engine` produced an alert. -/
inductive SupplierSignal
  | otd
  | defectRate
  | qualityScore
  | leadTime
deriving DecidableEq, BEq

/-- One row of `data/supplier.csv`, restricted to the monitored signals;
`none` is the NaN produced by `pd.to_numeric(..., errors = coerce)` on a
missing or non-numeric value. -/
structure SupplierRow where
  on_time_delivery_rate : Option ℚ
  quality_score : Option ℚ
  defect_rate_percent : Option ℚ
  lead_time_days : Option ℚ
deriving DecidableEq

/-- An alert emitted by `supplier_rule_engine` for one row. -/
structure SupplierAlert where
  signal : SupplierSignal
  severity : String
deriving DecidableEq, BEq

/-- Rule 1: poor on-time delivery rate (`pd.notna` guard, then banding). -/
def otdAlerts : Option ℚ → List SupplierAlert
  | none => []
  | some x =>
      if x < OTD_CRITICAL_THRESHOLD then [⟨.otd, "Critical"⟩]
      else if x < OTD_MEDIUM_THRESHOLD then [⟨.otd, "Medium"⟩]
      else if x < OTD_LOW_THRESHOLD then [⟨.otd, "Low"⟩]
      else []

/-- Rule 2: high defect rate. -/
def defectRateAlerts : Option ℚ → List SupplierAlert
  | none => []
  | some x =>
      if x ≥ DEFECT_CRITICAL_THRESHOLD then [⟨.defectRate, "Critical"⟩]
      else if x ≥ DEFECT_MEDIUM_THRESHOLD then [⟨.defectRate, "Medium"⟩]
      else if x ≥ DEFECT_LOW_THRESHOLD then [⟨.defectRate, "Low"⟩]
      else []

/-- Rule 3: low quality score. -/
def qualityScoreAlerts : Option ℚ → List SupplierAlert
  | none => []
  | some x =>
      if x < QUALITY_CRITICAL_THRESHOLD then [⟨.qualityScore, "Critical"⟩]
      else if x < QUALITY_MEDIUM_THRESHOLD then [⟨.qualityScore, "Medium"⟩]
      else if x < QUALITY_LOW_THRESHOLD then [⟨.qualityScore, "Low"⟩]
      else []

/-- Rule 4: excessive lead time. -/
def leadTimeAlerts : Option ℚ → List SupplierAlert
  | none => []
  | some x =>
      if x ≥ LEAD_TIME_CRITICAL_THRESHOLD then [⟨.leadTime, "Critical"⟩]
      else if x ≥ LEAD_TIME_MEDIUM_THRESHOLD then [⟨.leadTime, "Medium"⟩]
      else if x ≥ LEAD_TIME_LOW_THRESHOLD then [⟨.leadTime, "Low"⟩]
      else []

/-- The loop body of `supplier_rule_engine` for one row: the four rule
blocks in source order. -/
def supplier_rule_engine_row (r : SupplierRow) : List SupplierAlert :=
  otdAlerts r.on_time_delivery_rate ++
    defectRateAlerts r.defect_rate_percent ++
    qualityScoreAlerts r.quality_score ++
    leadTimeAlerts r.lead_time_days

/-- A supplier row whose on-time-delivery signal is missing while the
other three signals carry ordinary values. -/
def supplierRowOtdMissing : SupplierRow :=
  { on_time_delivery_rate := none
    quality_score := some (79 / 10)
    defect_rate_percent := some (5 / 2)
    lead_time_days := some 12 }

/-- Python's `str.lower()` (character-wise lowercasing). -/
def strLower (s : String) : String := String.mk (s.data.map Char.toLower)

/-! ## `logistics_engine.py` — thresholds and per-row processing -/

def CRITICAL_DELAY_HOURS : ℚ := 48
def MEDIUM_DELAY_HOURS : ℚ := 24
def MINOR_DELAY_HOURS : ℚ := 6

def HIGH_QUANTITY_THRESHOLD : ℚ := 500
def MEDIUM_QUANTITY_THRESHOLD : ℚ := 100

def CRITICAL_SHIPMENT_STATUSES : List String :=
  ["delayed", "damaged", "lost", "stuck_in_customs", "return_to_origin", "exception"]

/-- Which rule block of `logistics_rule_engine` produced an alert; the
three blocks use distinct title templates in the source
(`CRITICAL LOGISTICS ALERT:`, `... Delay:` and `Positive Logistics:`). -/
inductive LKind
  | criticalStatus
  | delay
  | positive
deriving DecidableEq, Repr

/-- One row of `data/logistics.csv`, restricted to the fields the rules
read.  Times are `pd.Timestamp`s embedded as seconds (`none` is the NaT of
`pd.to_datetime(..., errors = coerce)`). -/
structure LRow where
  Status : String
  Quantity : Option ℚ
  ScheduledArrivalTime : Option ℚ
  ActualArrivalTime : Option ℚ
  EstimatedTimeOfArrival : Option ℚ
  ScheduledDepartureTime : Option ℚ
  ActualDepartureTime : Option ℚ
deriving DecidableEq

/-- An alert logged by `logistics_rule_engine`. -/
structure LRec where
  alert_id : String
  kind : LKind
  severity : String
deriving DecidableEq

/-- Rule 2 arrival-delay chain (`delay_hours` computed from actual vs
scheduled arrival, else estimated vs scheduled, else current time vs
scheduled; `total_seconds() / 3600`). -/
def arrivalDelayHours (now : ℚ) (r : LRow) : ℚ :=
  match r.ActualArrivalTime, r.ScheduledArrivalTime, r.EstimatedTimeOfArrival with
  | some a, some s, _ => if a > s then (a - s) / 3600 else 0
  | none, some s, some e =>
      if e > s then (e - s) / 3600 else if now > s then (now - s) / 3600 else 0
  | none, some s, none => if now > s then (now - s) / 3600 else 0
  | _, none, _ => 0

/-- Rule 2 departure adjustment: a larger departure delay overrides the
arrival delay (`delay_hours = max(delay_hours, departure_delay)`). -/
def delay_hours (now : ℚ) (r : LRow) : ℚ :=
  let dh := arrivalDelayHours now r
  match r.ActualDepartureTime, r.ScheduledDepartureTime with
  | some ad, some sd => if ad > sd then max dh ((ad - sd) / 3600) else dh
  | _, _ => dh

/-- Rule 2 severity banding plus quantity escalation. -/
def delaySeverity (dh : ℚ) (qty : Option ℚ) : String :=
  let sev :=
    if dh ≥ CRITICAL_DELAY_HOURS then "Critical"
    else if dh ≥ MEDIUM_DELAY_HOURS then "Medium"
    else "Low"
  match qty with
  | none => sev
  | some q =>
      if q ≥ HIGH_QUANTITY_THRESHOLD ∧ sev ≠ "Critical" then
        if sev = "Medium" then "Critical"
        else if sev = "Low" then "Medium"
        else sev
      else if q ≥ MEDIUM_QUANTITY_THRESHOLD ∧ sev = "Low" then "Medium"
      else sev

/-- The loop body of `logistics_rule_engine` for one row: returns the
records logged for the row, the value written into the row's `alert_id`
column, and the advanced id-stream counter.  Rule 1 (critical shipment
status) logs one Critical alert, links it and `continue`s, skipping
Rule 2 (delay banding) and Rule 3 (on-time / early `Info` notice). -/
def logisticsRowStep (now : ℚ) (ids : Nat → String) (k : Nat) (r : LRow) :
    List LRec × Option String × Nat :=
  let status := strLower r.Status
  if status ∈ CRITICAL_SHIPMENT_STATUSES then
    ([⟨ids k, .criticalStatus, "Critical"⟩], some (String.intercalate "," [ids k]), k + 1)
  else
    let delayRecs : List LRec :=
      if status = "delayed" ∧ delay_hours now r > 0 then
        [⟨ids k, .delay, delaySeverity (delay_hours now r) r.Quantity⟩]
      else []
    let k1 := k + delayRecs.length
    let positiveRecs : List LRec :=
      if status = "delivered" then
        match r.ActualArrivalTime, r.ScheduledArrivalTime with
        | some a, some s => if a ≤ s then [⟨ids k1, .positive, "Info"⟩] else []
        | _, _ => []
      else []
    let recs := delayRecs ++ positiveRecs
    (recs,
      if recs.isEmpty then none
      else some (String.intercalate "," (recs.map (·.alert_id))),
      k + recs.length)

/-- A damaged shipment whose times would also yield a 100-hour delay. -/
def logisticsRowDamaged : LRow :=
  { Status := "Damaged"
    Quantity := some 600
    ScheduledArrivalTime := some 0
    ActualArrivalTime := some 360000
    EstimatedTimeOfArrival := none
    ScheduledDepartureTime := none
    ActualDepartureTime := none }

/-- A delayed shipment whose times would yield a 100-hour delay. -/
def logisticsRowDelayed : LRow :=
  { Status := "delayed"
    Quantity := some 600
    ScheduledArrivalTime := some 0
    ActualArrivalTime := some 360000
    EstimatedTimeOfArrival := none
    ScheduledDepartureTime := none
    ActualDepartureTime := none }

/-! ## `local_news_engine.py` — keywords, thresholds, per-row processing -/

def POP_CRITICAL_THRESHOLD : ℚ := 5000000
def POP_MEDIUM_THRESHOLD : ℚ := 500000
def POP_LOW_THRESHOLD : ℚ := 50000

def WEATHER_CRITICAL_KEYWORDS : List String :=
  ["cyclone", "tornado", "hurricane", "blizzard", "flood", "severe thunderstorm",
   "landslide"]

def WEATHER_MEDIUM_KEYWORDS : List String :=
  ["heavy rain", "snow storm", "flash flood", "heatwave", "dense fog", "thunderstorm"]

def WEATHER_LOW_KEYWORDS : List String :=
  ["rain", "light snow", "wind advisory", "drizzle"]

def ROAD_CRITICAL_KEYWORDS : List String :=
  ["major highway closure", "airport closure", "port strike", "trucking strike",
   "bridge collapse", "total closure"]

def ROAD_MEDIUM_KEYWORDS : List String :=
  ["street closure", "traffic disruption", "construction delay", "partial closure"]

def PUBLIC_SAFETY_KEYWORDS : List String :=
  ["evacuation", "lockdown", "riot", "protest", "bomb threat", "natural disaster",
   "emergency"]

/-- A Python runtime error; `local_news_rule_engine` hits a `NameError`
(use of a name not defined in the module). -/
inductive PyError
  | nameError (name : String)
deriving DecidableEq

/-- Which rule block of `local_news_rule_engine` produced an alert. -/
inductive NewsKind
  | publicSafety
  | weatherAlert
  | roadClosure
  | localEvent
deriving DecidableEq

/-- An alert logged by `local_news_rule_engine`. -/
structure NewsAlert where
  kind : NewsKind
  severity : String
deriving DecidableEq

/-- One row of `data/local_news.csv`, restricted to the fields the rules
read; dates are embedded as seconds, `none` for NaT. -/
structure NewsRow where
  event_type : String
  impact_level : String
  description : String
  route_affected : String
  affected_population_estimate : Option ℚ
  event_start_date : Option ℚ
  event_end_date : Option ℚ
deriving DecidableEq

/-- `any(keyword in hay for keyword in kws)`. -/
def containsAny (hay : String) (kws : List String) : Bool :=
  kws.any (fun kw => strContains hay kw)

/-- The default severity derived from the CSV `impact_level` column. -/
def newsBaseSeverity (impact : String) : String :=
  if impact = "high" then "Medium"
  else if impact = "medium" then "Low"
  else if impact = "critical" then "Critical"
  else "Low"

/-- Rule 2 severity refinement for weather-alert events. -/
def weatherFinalSeverity (base desc : String) (pop : Option ℚ) : String :=
  if containsAny desc WEATHER_CRITICAL_KEYWORDS ||
      (match pop with | some p => decide (p ≥ POP_CRITICAL_THRESHOLD) | none => false) then
    "Critical"
  else if containsAny desc WEATHER_MEDIUM_KEYWORDS ||
      (match pop with | some p => decide (p ≥ POP_MEDIUM_THRESHOLD) | none => false) then
    if base ≠ "Critical" then "Medium" else base
  else if containsAny desc WEATHER_LOW_KEYWORDS ||
      (match pop with | some p => decide (p ≥ POP_LOW_THRESHOLD) | none => false) then
    if base ≠ "Critical" ∧ base ≠ "Medium" then "Low" else base
  else base

/-- Rule 2: weather alerts (the final severity is always one of Critical,
Medium, Low, so the block logs whenever its guard holds). -/
def weatherBlock (et desc : String) (pop : Option ℚ) (base : String) : List NewsAlert :=
  if strContains et "weather alert" then
    [⟨.weatherAlert, weatherFinalSeverity base desc pop⟩]
  else []

/-- Rule 3 severity refinement for road-closure / logistics events. -/
def roadFinalSeverity (base impact desc : String) : String :=
  if containsAny desc ROAD_CRITICAL_KEYWORDS || strContains impact "critical" then
    "Critical"
  else if containsAny desc ROAD_MEDIUM_KEYWORDS || strContains desc "route affected" ||
      strContains desc "significant delay" then
    if base ≠ "Critical" then "Medium" else base
  else base

/-- Rule 3: road closures / logistics impacts. -/
def roadBlock (et impact desc : String) (base : String) : List NewsAlert :=
  if strContains et "road closure" ||
      containsAny desc (ROAD_CRITICAL_KEYWORDS ++ ROAD_MEDIUM_KEYWORDS) then
    [⟨.roadClosure, roadFinalSeverity base impact desc⟩]
  else []

/-- Rule 4: local festivals / community fairs (always logged). -/
def festivalBlock (et : String) (pop : Option ℚ) : List NewsAlert :=
  if strContains et "local festival" || strContains et "community fair" then
    [⟨.localEvent,
      if (match pop with | some p => decide (p ≥ POP_MEDIUM_THRESHOLD) | none => false)
      then "Medium" else "Low"⟩]
  else []

/-- The loop body of `local_news_rule_engine` for one row.  Rows outside
their active window (or with invalid dates) are skipped.  When a
public-safety keyword is found, the source logs one Critical alert and
then executes `inventory_df.loc[index, ...] = ...` — but `inventory_df`
is not defined anywhere in `local_news_engine.py`, so Python raises
`NameError` and the engine aborts. -/
def local_news_row (now : ℚ) (r : NewsRow) : Except PyError (List NewsAlert) :=
  let et := strLower r.event_type
  let impact := strLower r.impact_level
  let desc := strLower r.description
  match r.event_start_date, r.event_end_date with
  | some s, some e =>
      if now < s ∨ now > e then .ok []
      else
        let base := newsBaseSeverity impact
        if containsAny desc PUBLIC_SAFETY_KEYWORDS then
          .error (.nameError "inventory_df")
        else
          .ok (weatherBlock et desc r.affected_population_estimate base ++
            roadBlock et impact desc base ++
            festivalBlock et r.affected_population_estimate)
  | _, _ => .ok []

/-- `local_news_rule_engine` over a dataset: rows processed in order, the
first uncaught exception aborts the run. -/
def local_news_rule_engine (now : ℚ) : List NewsRow → Except PyError (List NewsAlert)
  | [] => .ok []
  | r :: rest =>
      match local_news_row now r with
      | .error err => .error err
      | .ok al =>
          match local_news_rule_engine now rest with
          | .error err => .error err
          | .ok bl => .ok (al ++ bl)

/-- An active local-news row whose description contains the public-safety
keyword `evacuation` (and also the weather keyword `flood`). -/
def evacRow : NewsRow :=
  { event_type := "Weather Alert"
    impact_level := "High"
    description := "Evacuation ordered after flood downtown"
    route_affected := "none"
    affected_population_estimate := some 100000
    event_start_date := some 0
    event_end_date := some 10 }

/-! ## `inventory_engine.py` — thresholds and per-row processing -/

def STOCKOUT_CRITICAL_THRESHOLD_FACTOR : ℚ := 2 / 10
def STOCKOUT_MEDIUM_THRESHOLD_FACTOR : ℚ := 5 / 10
def STOCKOUT_LOW_THRESHOLD_FACTOR : ℚ := 1

def OVERSTOCK_CRITICAL_CAPACITY_FACTOR : ℚ := 105 / 100
def OVERSTOCK_MEDIUM_CAPACITY_FACTOR : ℚ := 95 / 100
def OVERSTOCK_LOW_CAPACITY_FACTOR : ℚ := 85 / 100

def OVERSTOCK_CRITICAL_DOS : ℚ := 90
def OVERSTOCK_MEDIUM_DOS : ℚ := 60
def OVERSTOCK_LOW_DOS : ℚ := 30

def DISCREPANCY_CRITICAL_ABS : ℚ := 10
def DISCREPANCY_MEDIUM_ABS : ℚ := 5
def DISCREPANCY_LOW_ABS : ℚ := 1

def SLOW_MOVING_MEDIUM_SALES_FACTOR : ℚ := 25 / 100
def SLOW_MOVING_LOW_SALES_FACTOR : ℚ := 5 / 10

def HIGH_SALES_CRITICAL_FACTOR : ℚ := 2
def HIGH_SALES_MEDIUM_FACTOR : ℚ := 15 / 10
def HIGH_SALES_LOW_FACTOR : ℚ := 12 / 10

/-- Which rule block of `inventory_rule_engine` produced an alert. -/
inductive IRule
  | stockout
  | overstock
  | discrepancy
  | slowMoving
  | highVelocity
deriving DecidableEq, Repr

/-- One row of `data/inventory.csv`, restricted to the monitored signals;
`none` is the NaN of `pd.to_numeric(..., errors = coerce)`. -/
structure IRow where
  current_stock : Option ℚ
  in_transit_in : Option ℚ
  daily_sales_avg : Option ℚ
  last_24h_sales : Option ℚ
  safety_stock_units : Option ℚ
  reorder_point_units : Option ℚ
  storage_capacity_units : Option ℚ
  on_hand_units : Option ℚ
  available_for_sale_units : Option ℚ
deriving DecidableEq

/-- An alert logged by `inventory_rule_engine`. -/
structure IRec where
  alert_id : String
  rule : IRule
  severity : String
  timestamp : Nat
deriving DecidableEq

/-- `effective_stock = current_stock + in_transit_in if` both are present,
`else current_stock`. -/
def effective_stock (r : IRow) : Option ℚ :=
  match r.current_stock, r.in_transit_in with
  | some c, some t => some (c + t)
  | _, _ => r.current_stock

/-- Rule 1: stockout risk. -/
def stockoutSpecs (r : IRow) : List (IRule × String) :=
  match effective_stock r, r.safety_stock_units, r.reorder_point_units with
  | some es, some ss, some rp =>
      if es ≤ 0 then [(.stockout, "Critical")]
      else if es < ss * STOCKOUT_CRITICAL_THRESHOLD_FACTOR then [(.stockout, "Critical")]
      else if es < ss * STOCKOUT_MEDIUM_THRESHOLD_FACTOR then [(.stockout, "Medium")]
      else if es < ss * STOCKOUT_LOW_THRESHOLD_FACTOR then [(.stockout, "Low")]
      else if es < rp then [(.stockout, "Low")]
      else []
  | _, _, _ => []

/-- Rule 2: overstock risk (capacity factor or days-of-supply). -/
def overstockSpecs (r : IRow) : List (IRule × String) :=
  match r.current_stock, r.storage_capacity_units, r.daily_sales_avg with
  | some c, some cap, some d =>
      if d > 0 then
        if c > cap * OVERSTOCK_CRITICAL_CAPACITY_FACTOR ∨ c / d > OVERSTOCK_CRITICAL_DOS then
          [(.overstock, "Critical")]
        else if c > cap * OVERSTOCK_MEDIUM_CAPACITY_FACTOR ∨ c / d > OVERSTOCK_MEDIUM_DOS then
          [(.overstock, "Medium")]
        else if c > cap * OVERSTOCK_LOW_CAPACITY_FACTOR ∨ c / d > OVERSTOCK_LOW_DOS then
          [(.overstock, "Low")]
        else []
      else []
  | _, _, _ => []

/-- Rule 3: inventory discrepancy (absolute difference of on-hand and
available-for-sale units). -/
def discrepancySpecs (r : IRow) : List (IRule × String) :=
  match r.on_hand_units, r.available_for_sale_units with
  | some oh, some av =>
      if |oh - av| ≥ DISCREPANCY_CRITICAL_ABS then [(.discrepancy, "Critical")]
      else if |oh - av| ≥ DISCREPANCY_MEDIUM_ABS then [(.discrepancy, "Medium")]
      else if |oh - av| ≥ DISCREPANCY_LOW_ABS then [(.discrepancy, "Low")]
      else []
  | _, _ => []

/-- Rule 4: slow-moving inventory. -/
def slowMovingSpecs (r : IRow) : List (IRule × String) :=
  match r.last_24h_sales, r.daily_sales_avg, r.current_stock, r.reorder_point_units with
  | some l24, some d, some c, some rp =>
      if d > 0 then
        if l24 = 0 ∧ c > rp then [(.slowMoving, "Critical")]
        else if l24 < d * SLOW_MOVING_MEDIUM_SALES_FACTOR then [(.slowMoving, "Medium")]
        else if l24 < d * SLOW_MOVING_LOW_SALES_FACTOR then [(.slowMoving, "Low")]
        else []
      else []
  | _, _, _, _ => []

/-- Rule 5: high sales velocity / fast depletion. -/
def highVelocitySpecs (r : IRow) : List (IRule × String) :=
  match r.last_24h_sales, r.daily_sales_avg, r.current_stock with
  | some l24, some d, some c =>
      if d > 0 then
        if l24 > d * HIGH_SALES_CRITICAL_FACTOR ∧ c < d * 2 then [(.highVelocity, "Critical")]
        else if l24 > d * HIGH_SALES_MEDIUM_FACTOR ∧ c < d * 3 then [(.highVelocity, "Medium")]
        else if l24 > d * HIGH_SALES_LOW_FACTOR ∧ c < d * 4 then [(.highVelocity, "Low")]
        else []
      else []
  | _, _, _ => []

/-- The alerts one inventory row triggers, in rule-block order. -/
def inventoryRowSpecs (r : IRow) : List (IRule × String) :=
  stockoutSpecs r ++ overstockSpecs r ++ discrepancySpecs r ++
    slowMovingSpecs r ++ highVelocitySpecs r

/-- The loop body's sequence of `log_alert` calls for one inventory row:
each triggered rule appends a record to the alerts log and its fresh id to
`current_alerts_for_row`. -/
def invLogMany (ids : Nat → String) (ts : Nat) :
    List (IRule × String) → List IRec → List String → Nat →
      List IRec × List String × Nat
  | [], alerts, cur, k => (alerts, cur, k)
  | (ru, sev) :: rest, alerts, cur, k =>
      invLogMany ids ts rest (alerts ++ [⟨ids k, ru, sev, ts⟩]) (cur ++ [ids k]) (k + 1)

/-- The loop body of `inventory_rule_engine` for one row: the updated
alerts log, the value written to the row's `alert_id` column (the
comma-join of `current_alerts_for_row`, or `None` if no rule fired), and
the advanced id-stream counter. -/
def inventoryRowStep (ids : Nat → String) (ts : Nat) (alerts : List IRec)
    (r : IRow) (k : Nat) : List IRec × Option String × Nat :=
  let res := invLogMany ids ts (inventoryRowSpecs r) alerts [] k
  (res.1,
    if res.2.1.isEmpty then none else some (String.intercalate "," res.2.1),
    res.2.2)

/-- The records freshly created for the specs starting at stream
position `k`. -/
def specRecords (ids : Nat → String) (ts : Nat) :
    Nat → List (IRule × String) → List IRec
  | _, [] => []
  | k, (ru, sev) :: rest => ⟨ids k, ru, sev, ts⟩ :: specRecords ids ts (k + 1) rest

/-- An inventory row simultaneously below safety stock (Rule 1) and with
a 20-unit on-hand vs available-for-sale discrepancy (Rule 3), triggering
no other rule. -/
def invRowMulti : IRow :=
  { current_stock := some 40
    in_transit_in := some 0
    daily_sales_avg := some 5
    last_24h_sales := some 4
    safety_stock_units := some 100
    reorder_point_units := some 60
    storage_capacity_units := some 1000
    on_hand_units := some 50
    available_for_sale_units := some 30 }

/-- A demonstration id stream. -/
def idsDemo : Nat → String := fun n => "a" ++ toString n

/-! ## `app.py` — dashboard sampling (`process_alerts`) and summary counts

`process_alerts` iterates the distinct categories (in a randomly shuffled
order), draws `min(len(category_df), max_per_category)` rows from each
category without replacement (`DataFrame.sample`), concatenates the draws
and shuffles the result.  The random choices become explicit parameters:
`catOrder` (the shuffled category order), `pick` (the sampler, constrained
by `ValidPick`, the documented contract of `sample`), and the final
shuffle is an arbitrary permutation hypothesis in the theorems. -/

/-- `df_raw[df_raw['category'] == category]`. -/
def groupFor (l : List AlertRecord) (c : String) : List AlertRecord :=
  l.filter (fun r => decide (r.category = c))

/-- `df_raw['category'].unique()` (first occurrence order). -/
def categoriesOf (l : List AlertRecord) : List String :=
  (l.map (fun r => r.category)).dedup

/-- `process_alerts` up to the final shuffle: per-category samples of size
`min(len(category_df), max_per_category)`, concatenated. -/
def process_alerts (pick : List AlertRecord → Nat → List AlertRecord)
    (catOrder : List String) (l : List AlertRecord) (maxPer : Nat) :
    List AlertRecord :=
  (catOrder.map
    (fun c => pick (groupFor l c) (min (groupFor l c).length maxPer))).flatten

/-- The contract of `DataFrame.sample(n=n)` for `n ≤ len`: `n` rows drawn
without replacement — a sub-multiset of the rows of size exactly `n`. -/
def ValidPick (pick : List AlertRecord → Nat → List AlertRecord) : Prop :=
  ∀ l n, n ≤ l.length → (pick l n).Subperm l ∧ (pick l n).length = n

/-- One concrete sampler satisfying the contract: take the first rows. -/
def takePick : List AlertRecord → Nat → List AlertRecord := fun l n => l.take n

/-- `total_alerts = len(df_alerts)` (app.py line 172). -/
def total_alerts (df : List AlertRecord) : Nat := df.length

/-- `critical_alerts` (app.py line 173): case-insensitive severity match. -/
def critical_alerts (df : List AlertRecord) : Nat :=
  (df.filter (fun r => decide (strLower r.severity = "critical"))).length

/-- `medium_alerts` (app.py line 174). -/
def medium_alerts (df : List AlertRecord) : Nat :=
  (df.filter (fun r => decide (strLower r.severity = "medium"))).length

/-- `low_alerts` (app.py line 175). -/
def low_alerts (df : List AlertRecord) : Nat :=
  (df.filter (fun r => decide (strLower r.severity = "low"))).length

/-- A sample alert-log record. -/
def mkA (c sev : String) (i : Nat) : AlertRecord :=
  { alert_id := "id" ++ toString i
    alert_title := "t"
    category := c
    severity := sev
    timestamp := 0 }

/-- 4 Critical, 3 Medium, 2 Low, 1 Info — all in one category, so the
sampler keeps only 4 of the 10 records. -/
def logTenOneCategory : List AlertRecord :=
  [mkA "Weather" "Critical" 0, mkA "Weather" "Critical" 1,
   mkA "Weather" "Critical" 2, mkA "Weather" "Critical" 3,
   mkA "Weather" "Medium" 4, mkA "Weather" "Medium" 5, mkA "Weather" "Medium" 6,
   mkA "Weather" "Low" 7, mkA "Weather" "Low" 8, mkA "Weather" "Info" 9]

/-- 4 Critical, 3 Medium, 2 Low, 1 Info — spread so that no category holds
more than 4 records. -/
def logTenSpread : List AlertRecord :=
  [mkA "Weather" "Critical" 0, mkA "Weather" "Critical" 1,
   mkA "Weather" "Critical" 2, mkA "Weather" "Critical" 3,
   mkA "Inventory" "Medium" 4, mkA "Inventory" "Medium" 5,
   mkA "Inventory" "Medium" 6,
   mkA "E-commerce" "Low" 7, mkA "E-commerce" "Low" 8,
   mkA "Logistics/Supply Chain" "Info" 9]

/-! ## Theorems -/

/-- C3: appending newly generated alert records to a loaded alert log
preserves every pre-existing record unaltered and in its original order;
the resulting log is exactly the prior log followed by the new records,
for every prior log, every list of new alerts, every id stream, every
timestamp and every stream position. -/
theorem log_alert_append_preserves (ids : Nat → String) (ts : Nat)
    (news : List (String × String × String)) (L : List AlertRecord) (k : Nat) :
    logAlerts ids ts news L k = L ++ mkRecords ids ts k news := by
  induction news generalizing L k with
  | nil => simp [logAlerts, mkRecords]
  | cons hd rest ih =>
      obtain ⟨t, c, s⟩ := hd
      simp [logAlerts, mkRecords, log_alert, ih]

theorem digitsBE_length (w n : Nat) : (digitsBE w n).length = w := by
  induction w generalizing n with
  | zero => rfl
  | succ w ih => simp [digitsBE, ih]

theorem digitsBE_mem_lt {w n x : Nat} (h : x ∈ digitsBE w n) : x < 64 := by
  induction w generalizing n with
  | zero => simp [digitsBE] at h
  | succ w ih =>
      simp only [digitsBE, List.mem_append, List.mem_singleton] at h
      rcases h with h | h
      · exact ih h
      · omega

theorem digitsBE_inj : ∀ w : Nat, ∀ m n : Nat, m < 64 ^ w → n < 64 ^ w →
    digitsBE w m = digitsBE w n → m = n := by
  intro w
  induction w with
  | zero => intro m n hm hn _; simp [pow_zero] at hm hn; omega
  | succ w ih =>
      intro m n hm hn h
      simp only [digitsBE] at h
      have hlen : (digitsBE w (m / 64)).length = (digitsBE w (n / 64)).length := by
        simp [digitsBE_length]
      obtain ⟨h1, h2⟩ := List.append_inj h hlen
      have hm' : m / 64 < 64 ^ w := by
        rw [pow_succ] at hm
        omega
      have hn' : n / 64 < 64 ^ w := by
        rw [pow_succ] at hn
        omega
      have hdiv := ih (m / 64) (n / 64) hm' hn' h1
      have hmod : m % 64 = n % 64 := by simpa using h2
      omega

theorem b64digit_inj {i j : Nat} (hi : i < 64) (hj : j < 64)
    (h : b64digit i = b64digit j) : i = j := by
  have key : ∀ a b : Fin 64, b64digit a.val = b64digit b.val → a = b := by decide
  have := key ⟨i, hi⟩ ⟨j, hj⟩ h
  simpa using congrArg Fin.val this

theorem map_b64digit_inj : ∀ l₁ l₂ : List Nat, (∀ x ∈ l₁, x < 64) →
    (∀ x ∈ l₂, x < 64) → l₁.map b64digit = l₂.map b64digit → l₁ = l₂ := by
  intro l₁
  induction l₁ with
  | nil => intro l₂ _ _ h; cases l₂ <;> simp_all
  | cons a t ih =>
      intro l₂ h₁ h₂ h
      cases l₂ with
      | nil => simp at h
      | cons b t' =>
          simp only [List.map_cons, List.cons.injEq] at h
          have ha : a = b :=
            b64digit_inj (h₁ a (by simp)) (h₂ b (by simp)) h.1
          have ht : t = t' :=
            ih t' (fun x hx => h₁ x (by simp [hx])) (fun x hx => h₂ x (by simp [hx])) h.2
          simp [ha, ht]

theorem shortId_inj {u v : Nat} (hu : u < 2 ^ 128) (hv : v < 2 ^ 128)
    (h : shortId u = shortId v) : u = v := by
  have hs : (digitsBE 22 (u * 16)).map b64digit = (digitsBE 22 (v * 16)).map b64digit := by
    have := congrArg String.data h
    simpa [shortId] using this
  have hd : digitsBE 22 (u * 16) = digitsBE 22 (v * 16) :=
    map_b64digit_inj _ _ (fun _ hx => digitsBE_mem_lt hx) (fun _ hx => digitsBE_mem_lt hx) hs
  have hpow : (64 : Nat) ^ 22 = 2 ^ 132 := by norm_num
  have hu16 : u * 16 < 64 ^ 22 := by
    rw [hpow]
    calc u * 16 < 2 ^ 128 * 16 := by omega
    _ = 2 ^ 132 := by norm_num
  have hv16 : v * 16 < 64 ^ 22 := by
    rw [hpow]
    calc v * 16 < 2 ^ 128 * 16 := by omega
    _ = 2 ^ 132 := by norm_num
  have := digitsBE_inj 22 (u * 16) (v * 16) hu16 hv16 hd
  omega

/-- C9: alert ids produced by `generate_alert_id` from pairwise-distinct
128-bit random UUID draws are pairwise distinct, so all alerts generated
across a run (and across the whole log) carry pairwise distinct
`alert_id`s whenever the underlying UUID draws do not collide. -/
theorem alert_ids_pairwise_distinct (entropy : List Nat) (hnd : entropy.Nodup)
    (hb : ∀ e ∈ entropy, e < 2 ^ 128) : (entropy.map shortId).Nodup := by
  refine hnd.map_on ?_
  intro x hx y hy hxy
  exact shortId_inj (hb x hx) (hb y hy) hxy

/-- C9 witness: two concrete distinct UUID draws yield distinct alert ids. -/
theorem alert_ids_pairwise_distinct_witness :
    ([0, 1] : List Nat).Nodup ∧ (∀ e ∈ ([0, 1] : List Nat), e < 2 ^ 128) ∧
      (([0, 1] : List Nat).map shortId).Nodup :=
  ⟨by decide, by decide,
    alert_ids_pairwise_distinct [0, 1] (by decide) (by decide)⟩

theorem conversionAlerts_signal (v : Option ℚ) :
    ∀ a ∈ conversionAlerts v, a.signal = EcomSignal.conversion := by
  intro a h
  cases v with
  | none => simp [conversionAlerts] at h
  | some x =>
      simp only [conversionAlerts] at h
      split_ifs at h <;> simp_all

theorem cartAbandonmentAlerts_signal (v : Option ℚ) :
    ∀ a ∈ cartAbandonmentAlerts v, a.signal = EcomSignal.cartAbandonment := by
  intro a h
  cases v with
  | none => simp [cartAbandonmentAlerts] at h
  | some x =>
      simp only [cartAbandonmentAlerts] at h
      split_ifs at h <;> simp_all

theorem onlineViewsAlerts_signal (v : Option ℚ) :
    ∀ a ∈ onlineViewsAlerts v, a.signal = EcomSignal.onlineViews := by
  intro a h
  cases v with
  | none => simp [onlineViewsAlerts] at h
  | some x =>
      simp only [onlineViewsAlerts] at h
      split_ifs at h <;> simp_all

theorem addToCartAlerts_signal (v : Option ℚ) :
    ∀ a ∈ addToCartAlerts v, a.signal = EcomSignal.addToCart := by
  intro a h
  cases v with
  | none => simp [addToCartAlerts] at h
  | some x =>
      simp only [addToCartAlerts] at h
      split_ifs at h <;> simp_all

theorem promoAlerts_signal (r : EcomRow) :
    ∀ a ∈ promoAlerts r, a.signal = EcomSignal.promo := by
  intro a h
  simp only [promoAlerts] at h
  split_ifs at h <;> simp_all

theorem conversionAlerts_len (v : Option ℚ) : (conversionAlerts v).length ≤ 1 := by
  cases v with
  | none => simp [conversionAlerts]
  | some x =>
      simp only [conversionAlerts]
      split_ifs <;> simp

theorem cartAbandonmentAlerts_len (v : Option ℚ) :
    (cartAbandonmentAlerts v).length ≤ 1 := by
  cases v with
  | none => simp [cartAbandonmentAlerts]
  | some x =>
      simp only [cartAbandonmentAlerts]
      split_ifs <;> simp

theorem onlineViewsAlerts_len (v : Option ℚ) : (onlineViewsAlerts v).length ≤ 1 := by
  cases v with
  | none => simp [onlineViewsAlerts]
  | some x =>
      simp only [onlineViewsAlerts]
      split_ifs <;> simp

theorem addToCartAlerts_len (v : Option ℚ) : (addToCartAlerts v).length ≤ 1 := by
  cases v with
  | none => simp [addToCartAlerts]
  | some x =>
      simp only [addToCartAlerts]
      split_ifs <;> simp

theorem promoAlerts_len (r : EcomRow) : (promoAlerts r).length ≤ 1 := by
  simp only [promoAlerts]
  split_ifs <;> simp

theorem countP_signal_zero {l : List EcomAlert} {σ : EcomSignal}
    (hall : ∀ a ∈ l, a.signal = σ) {s : EcomSignal} (hne : s ≠ σ) :
    l.countP (fun a => decide (a.signal = s)) = 0 := by
  apply List.countP_eq_zero.mpr
  intro a ha h
  have h2 : a.signal = s := of_decide_eq_true h
  rw [hall a ha] at h2
  exact hne h2.symm

/-- C1: the e-commerce classifier assigns at most one severity per banded
signal on every row — cutoffs are checked Critical, then Medium, then Low
and the first match wins — and in particular a conversion rate of 0.010
(cutoffs critical < 0.008, medium < 0.012, low < 0.018) yields exactly one
Medium conversion-rate alert and no Low one. -/
theorem ecommerce_exclusive_banding (r : EcomRow) :
    (∀ s : EcomSignal,
      (ecommerce_rule_engine_row r).countP (fun a => decide (a.signal = s)) ≤ 1) ∧
    conversionAlerts (some (1 / 100)) =
      [{ signal := EcomSignal.conversion, severity := "Medium" }] := by
  constructor
  · intro s
    simp only [ecommerce_rule_engine_row, List.countP_append]
    have l1 := le_trans (List.countP_le_length (fun a => decide (a.signal = s)))
      (conversionAlerts_len r.conversion_rate)
    have l2 := le_trans (List.countP_le_length (fun a => decide (a.signal = s)))
      (cartAbandonmentAlerts_len r.cart_abandonment_rate)
    have l3 := le_trans (List.countP_le_length (fun a => decide (a.signal = s)))
      (onlineViewsAlerts_len r.online_views)
    have l4 := le_trans (List.countP_le_length (fun a => decide (a.signal = s)))
      (addToCartAlerts_len r.add_to_cart)
    have l5 := le_trans (List.countP_le_length (fun a => decide (a.signal = s)))
      (promoAlerts_len r)
    cases s with
    | conversion =>
        have z2 := countP_signal_zero (cartAbandonmentAlerts_signal r.cart_abandonment_rate)
          (show EcomSignal.conversion ≠ EcomSignal.cartAbandonment by decide)
        have z3 := countP_signal_zero (onlineViewsAlerts_signal r.online_views)
          (show EcomSignal.conversion ≠ EcomSignal.onlineViews by decide)
        have z4 := countP_signal_zero (addToCartAlerts_signal r.add_to_cart)
          (show EcomSignal.conversion ≠ EcomSignal.addToCart by decide)
        have z5 := countP_signal_zero (promoAlerts_signal r)
          (show EcomSignal.conversion ≠ EcomSignal.promo by decide)
        omega
    | cartAbandonment =>
        have z1 := countP_signal_zero (conversionAlerts_signal r.conversion_rate)
          (show EcomSignal.cartAbandonment ≠ EcomSignal.conversion by decide)
        have z3 := countP_signal_zero (onlineViewsAlerts_signal r.online_views)
          (show EcomSignal.cartAbandonment ≠ EcomSignal.onlineViews by decide)
        have z4 := countP_signal_zero (addToCartAlerts_signal r.add_to_cart)
          (show EcomSignal.cartAbandonment ≠ EcomSignal.addToCart by decide)
        have z5 := countP_signal_zero (promoAlerts_signal r)
          (show EcomSignal.cartAbandonment ≠ EcomSignal.promo by decide)
        omega
    | onlineViews =>
        have z1 := countP_signal_zero (conversionAlerts_signal r.conversion_rate)
          (show EcomSignal.onlineViews ≠ EcomSignal.conversion by decide)
        have z2 := countP_signal_zero (cartAbandonmentAlerts_signal r.cart_abandonment_rate)
          (show EcomSignal.onlineViews ≠ EcomSignal.cartAbandonment by decide)
        have z4 := countP_signal_zero (addToCartAlerts_signal r.add_to_cart)
          (show EcomSignal.onlineViews ≠ EcomSignal.addToCart by decide)
        have z5 := countP_signal_zero (promoAlerts_signal r)
          (show EcomSignal.onlineViews ≠ EcomSignal.promo by decide)
        omega
    | addToCart =>
        have z1 := countP_signal_zero (conversionAlerts_signal r.conversion_rate)
          (show EcomSignal.addToCart ≠ EcomSignal.conversion by decide)
        have z2 := countP_signal_zero (cartAbandonmentAlerts_signal r.cart_abandonment_rate)
          (show EcomSignal.addToCart ≠ EcomSignal.cartAbandonment by decide)
        have z3 := countP_signal_zero (onlineViewsAlerts_signal r.online_views)
          (show EcomSignal.addToCart ≠ EcomSignal.onlineViews by decide)
        have z5 := countP_signal_zero (promoAlerts_signal r)
          (show EcomSignal.addToCart ≠ EcomSignal.promo by decide)
        omega
    | promo =>
        have z1 := countP_signal_zero (conversionAlerts_signal r.conversion_rate)
          (show EcomSignal.promo ≠ EcomSignal.conversion by decide)
        have z2 := countP_signal_zero (cartAbandonmentAlerts_signal r.cart_abandonment_rate)
          (show EcomSignal.promo ≠ EcomSignal.cartAbandonment by decide)
        have z3 := countP_signal_zero (onlineViewsAlerts_signal r.online_views)
          (show EcomSignal.promo ≠ EcomSignal.onlineViews by decide)
        have z4 := countP_signal_zero (addToCartAlerts_signal r.add_to_cart)
          (show EcomSignal.promo ≠ EcomSignal.addToCart by decide)
        omega
  · simp only [conversionAlerts]
    have hA : ¬ ((1 : ℚ) / 100 < CONVERSION_CRITICAL_THRESHOLD) := by
      norm_num [CONVERSION_CRITICAL_THRESHOLD]
    have hB : (1 : ℚ) / 100 < CONVERSION_MEDIUM_THRESHOLD := by
      norm_num [CONVERSION_MEDIUM_THRESHOLD]
    rw [if_neg hA, if_pos hB]

/-- C4: when a monitored supplier signal is missing or non-numeric
(`pd.to_numeric` coerces it to NaN), that signal's rule block produces no
alert for the row and every other rule block still contributes exactly
its normal alerts; the engine is a total function and never raises. -/
theorem supplier_missing_signal_suppression (r : SupplierRow) :
    (r.on_time_delivery_rate = none →
      supplier_rule_engine_row r =
        defectRateAlerts r.defect_rate_percent ++
          qualityScoreAlerts r.quality_score ++ leadTimeAlerts r.lead_time_days) ∧
    (r.defect_rate_percent = none →
      supplier_rule_engine_row r =
        otdAlerts r.on_time_delivery_rate ++
          qualityScoreAlerts r.quality_score ++ leadTimeAlerts r.lead_time_days) ∧
    (r.quality_score = none →
      supplier_rule_engine_row r =
        otdAlerts r.on_time_delivery_rate ++
          defectRateAlerts r.defect_rate_percent ++ leadTimeAlerts r.lead_time_days) ∧
    (r.lead_time_days = none →
      supplier_rule_engine_row r =
        otdAlerts r.on_time_delivery_rate ++
          defectRateAlerts r.defect_rate_percent ++ qualityScoreAlerts r.quality_score) := by
  refine ⟨?_, ?_, ?_, ?_⟩ <;> intro h <;>
    simp [supplier_rule_engine_row, h, otdAlerts, defectRateAlerts,
      qualityScoreAlerts, leadTimeAlerts]

/-- C4 witness: a concrete row whose on-time-delivery value is missing is
classified by the other three blocks only. -/
theorem supplier_missing_signal_suppression_witness :
    supplierRowOtdMissing.on_time_delivery_rate = none ∧
    supplier_rule_engine_row supplierRowOtdMissing =
      defectRateAlerts supplierRowOtdMissing.defect_rate_percent ++
        qualityScoreAlerts supplierRowOtdMissing.quality_score ++
        leadTimeAlerts supplierRowOtdMissing.lead_time_days :=
  ⟨rfl, (supplier_missing_signal_suppression supplierRowOtdMissing).1 rfl⟩

theorem intercalate_singleton (s a : String) : String.intercalate s [a] = a := rfl

/-- C2: the claim fails on the code — a local-news row inside its active
window whose description contains a public-safety keyword does trigger
Rule 1, but the line that links the generated alert id writes to
`inventory_df`, a name not defined in `local_news_engine.py`, so the
engine raises `NameError` instead of proceeding to the next row: on the
concrete evacuation row the whole run aborts with that error. -/
theorem local_news_evacuation_name_error :
    local_news_rule_engine 5 [evacRow] = .error (.nameError "inventory_df") := rfl

/-- C5: a logistics row whose `Status` lowercases to `damaged` short
circuits — the engine logs exactly one Critical alert, writes exactly that
one generated id into the row's `alert_id` field, advances the id stream
by one, and never evaluates the delay rule or the on-time/early rule,
regardless of any delay-hours computation. -/
theorem logistics_damaged_short_circuit (now : ℚ) (ids : Nat → String) (k : Nat)
    (r : LRow) (h : strLower r.Status = "damaged") :
    logisticsRowStep now ids k r =
      ([⟨ids k, LKind.criticalStatus, "Critical"⟩], some (ids k), k + 1) := by
  have hmem : strLower r.Status ∈ CRITICAL_SHIPMENT_STATUSES := by
    rw [h]; decide
  simp [logisticsRowStep, hmem, intercalate_singleton]

/-- C5 witness: the concrete damaged row (whose timestamps would give a
100-hour delay) produces exactly one Critical alert and that one id. -/
theorem logistics_damaged_short_circuit_witness :
    strLower logisticsRowDamaged.Status = "damaged" ∧
    logisticsRowStep 0 (fun _ => "a1") 0 logisticsRowDamaged =
      ([⟨"a1", LKind.criticalStatus, "Critical"⟩], some "a1", 1) :=
  ⟨rfl, logistics_damaged_short_circuit 0 (fun _ => "a1") 0 logisticsRowDamaged rfl⟩

/-- C6: `delayed` is itself a critical shipment status, so the delay
banding rule of `logistics_rule_engine` is unreachable: no row ever emits
a delay-rule alert, and a row whose `Status` lowercases to `delayed`
produces exactly one Critical status alert instead. -/
theorem logistics_delay_rule_unreachable (now : ℚ) (ids : Nat → String) (k : Nat)
    (r : LRow) :
    "delayed" ∈ CRITICAL_SHIPMENT_STATUSES ∧
    ((logisticsRowStep now ids k r).1.all (fun a => decide (a.kind ≠ LKind.delay)) = true) ∧
    (strLower r.Status = "delayed" →
      (logisticsRowStep now ids k r).1 = [⟨ids k, LKind.criticalStatus, "Critical"⟩]) := by
  refine ⟨by decide, ?_, ?_⟩
  · by_cases hc : strLower r.Status ∈ CRITICAL_SHIPMENT_STATUSES
    · simp [logisticsRowStep, hc]
    · have hnd : ¬ strLower r.Status = "delayed" := by
        intro h
        exact hc (by rw [h]; decide)
      simp only [logisticsRowStep, if_neg hc]
      rw [if_neg (fun hcon => hnd hcon.1)]
      simp only [List.nil_append]
      split
      · split
        · split <;> simp
        · simp
      · simp
  · intro h
    have hmem : strLower r.Status ∈ CRITICAL_SHIPMENT_STATUSES := by
      rw [h]; decide
    simp [logisticsRowStep, hmem]

/-- C6 witness: the concrete delayed row (whose timestamps would give a
100-hour delay) yields exactly one Critical status alert. -/
theorem logistics_delay_rule_unreachable_witness :
    strLower logisticsRowDelayed.Status = "delayed" ∧
    (logisticsRowStep 0 (fun _ => "a1") 0 logisticsRowDelayed).1 =
      [⟨"a1", LKind.criticalStatus, "Critical"⟩] :=
  ⟨rfl, (logistics_delay_rule_unreachable 0 (fun _ => "a1") 0 logisticsRowDelayed).2.2 rfl⟩

theorem invLogMany_eq (ids : Nat → String) (ts : Nat) (specs : List (IRule × String)) :
    ∀ (alerts : List IRec) (cur : List String) (k : Nat),
    invLogMany ids ts specs alerts cur k =
      (alerts ++ specRecords ids ts k specs,
        cur ++ (specRecords ids ts k specs).map (·.alert_id),
        k + specs.length) := by
  induction specs with
  | nil => intro alerts cur k; simp [invLogMany, specRecords]
  | cons hd rest ih =>
      intro alerts cur k
      obtain ⟨ru, sev⟩ := hd
      simp [invLogMany, specRecords, ih, List.append_assoc]
      omega

theorem stockoutSpecs_invRowMulti :
    stockoutSpecs invRowMulti = [(IRule.stockout, "Medium")] := by
  simp only [stockoutSpecs, effective_stock, invRowMulti]
  norm_num [STOCKOUT_CRITICAL_THRESHOLD_FACTOR, STOCKOUT_MEDIUM_THRESHOLD_FACTOR]

theorem overstockSpecs_invRowMulti : overstockSpecs invRowMulti = [] := by
  simp only [overstockSpecs, invRowMulti]
  norm_num [OVERSTOCK_CRITICAL_CAPACITY_FACTOR, OVERSTOCK_MEDIUM_CAPACITY_FACTOR,
    OVERSTOCK_LOW_CAPACITY_FACTOR, OVERSTOCK_CRITICAL_DOS, OVERSTOCK_MEDIUM_DOS,
    OVERSTOCK_LOW_DOS]

theorem discrepancySpecs_invRowMulti :
    discrepancySpecs invRowMulti = [(IRule.discrepancy, "Critical")] := by
  simp only [discrepancySpecs, invRowMulti]
  norm_num [DISCREPANCY_CRITICAL_ABS]

theorem slowMovingSpecs_invRowMulti : slowMovingSpecs invRowMulti = [] := by
  simp only [slowMovingSpecs, invRowMulti]
  norm_num [SLOW_MOVING_MEDIUM_SALES_FACTOR, SLOW_MOVING_LOW_SALES_FACTOR]

theorem highVelocitySpecs_invRowMulti : highVelocitySpecs invRowMulti = [] := by
  simp only [highVelocitySpecs, invRowMulti]
  norm_num [HIGH_SALES_CRITICAL_FACTOR, HIGH_SALES_MEDIUM_FACTOR, HIGH_SALES_LOW_FACTOR]

theorem inventoryRowSpecs_invRowMulti :
    inventoryRowSpecs invRowMulti =
      [(IRule.stockout, "Medium"), (IRule.discrepancy, "Critical")] := by
  simp [inventoryRowSpecs, stockoutSpecs_invRowMulti, overstockSpecs_invRowMulti,
    discrepancySpecs_invRowMulti, slowMovingSpecs_invRowMulti,
    highVelocitySpecs_invRowMulti]

/-- C7: for every inventory row the engine appends one distinct record per
triggered rule block (prior log preserved), the row's `alert_id` field is
exactly the comma-join of the freshly generated ids in generation order
(`None` when no block fires), and the concrete row that is simultaneously
below safety stock and shows a high on-hand vs available-for-sale
discrepancy yields exactly those two records and the field `a0,a1`. -/
theorem inventory_multi_alert_row (ids : Nat → String) (ts : Nat)
    (alerts : List IRec) (r : IRow) (k : Nat) :
    (inventoryRowStep ids ts alerts r k).1 =
      alerts ++ specRecords ids ts k (inventoryRowSpecs r) ∧
    (inventoryRowStep ids ts alerts r k).2.1 =
      (if (inventoryRowSpecs r).isEmpty then none
        else some (String.intercalate ","
          ((specRecords ids ts k (inventoryRowSpecs r)).map (·.alert_id)))) ∧
    inventoryRowSpecs invRowMulti =
      [(IRule.stockout, "Medium"), (IRule.discrepancy, "Critical")] ∧
    (inventoryRowStep idsDemo 0 [] invRowMulti 0).2.1 = some "a0,a1" := by
  refine ⟨?_, ?_, inventoryRowSpecs_invRowMulti, ?_⟩
  · simp [inventoryRowStep, invLogMany_eq]
  · simp only [inventoryRowStep, invLogMany_eq, List.nil_append]
    cases hspec : inventoryRowSpecs r with
    | nil => simp [specRecords]
    | cons hd tl =>
        obtain ⟨ru, sev⟩ := hd
        simp [specRecords]
  · simp only [inventoryRowStep, inventoryRowSpecs_invRowMulti, invLogMany_eq,
      List.nil_append, specRecords]
    rfl

theorem countP_split {α : Type} (f g h : α → Bool) (l : List α)
    (hp : ∀ a, ((if f a = true then 1 else 0) + (if g a = true then 1 else 0) : Nat) =
      if h a = true then 1 else 0) :
    l.countP f + l.countP g = l.countP h := by
  induction l with
  | nil => simp
  | cons a t ih =>
      simp only [List.countP_cons]
      have := hp a
      omega

theorem countP_groupFor (p : AlertRecord → Bool) (l : List AlertRecord) (c : String) :
    (groupFor l c).countP p = l.countP (fun r => p r && decide (r.category = c)) := by
  simp [groupFor, List.countP_filter]

theorem sum_countP_groups (p : AlertRecord → Bool) (l : List AlertRecord) :
    ∀ cs : List String, cs.Nodup →
      (cs.map (fun c => (groupFor l c).countP p)).sum =
        l.countP (fun r => p r && decide (r.category ∈ cs)) := by
  intro cs
  induction cs with
  | nil =>
      intro _
      simp [List.countP_eq_zero]
  | cons c cs' ih =>
      intro hnd
      obtain ⟨hcm, hnd'⟩ := List.nodup_cons.mp hnd
      simp only [List.map_cons, List.sum_cons]
      rw [ih hnd', countP_groupFor]
      apply countP_split
      intro a
      by_cases hpa : p a = true
      · by_cases h1 : a.category = c
        · have h2 : a.category ∉ cs' := by rw [h1]; exact hcm
          simp [hpa, h1, h2, hcm]
        · by_cases h2 : a.category ∈ cs'
          · simp [hpa, h1, h2]
          · simp [hpa, h1, h2]
      · have hpf : p a = false := by revert hpa; cases p a <;> simp
        simp [hpf]

theorem countP_cover (p : AlertRecord → Bool) (l : List AlertRecord) :
    l.countP (fun r => p r && decide (r.category ∈ categoriesOf l)) = l.countP p := by
  apply List.countP_congr
  intro a ha
  have hmem : a.category ∈ categoriesOf l := by
    simp only [categoriesOf, List.mem_dedup, List.mem_map]
    exact ⟨a, ha, rfl⟩
  simp [hmem]

theorem categoriesOf_nodup (l : List AlertRecord) : (categoriesOf l).Nodup :=
  List.nodup_dedup _

theorem process_alerts_countP (pick : List AlertRecord → Nat → List AlertRecord)
    (catOrder : List String) (l : List AlertRecord) (maxPer : Nat)
    (hp : ValidPick pick) (hc : catOrder.Perm (categoriesOf l))
    (hsmall : ∀ c ∈ categoriesOf l, (groupFor l c).length ≤ maxPer)
    (p : AlertRecord → Bool) :
    (process_alerts pick catOrder l maxPer).countP p = l.countP p := by
  have hpick : ∀ c ∈ catOrder,
      (pick (groupFor l c) (min (groupFor l c).length maxPer)).Perm (groupFor l c) := by
    intro c hcm
    have hcmem : c ∈ categoriesOf l := hc.mem_iff.mp hcm
    have hle : (groupFor l c).length ≤ maxPer := hsmall c hcmem
    have hmin : min (groupFor l c).length maxPer = (groupFor l c).length := by omega
    obtain ⟨hsub, hlen⟩ :=
      hp (groupFor l c) (min (groupFor l c).length maxPer) (by omega)
    exact hsub.perm_of_length_le (by omega)
  have hmapeq :
      catOrder.map (fun c =>
        (pick (groupFor l c) (min (groupFor l c).length maxPer)).countP p) =
      catOrder.map (fun c => (groupFor l c).countP p) :=
    List.map_congr_left (fun c hcm => ((hpick c hcm).countP_eq p))
  calc (process_alerts pick catOrder l maxPer).countP p
      = (catOrder.map (fun c =>
          (pick (groupFor l c) (min (groupFor l c).length maxPer)).countP p)).sum := by
        simp only [process_alerts, List.countP_flatten, List.map_map,
          Function.comp_def]
    _ = (catOrder.map (fun c => (groupFor l c).countP p)).sum := by rw [hmapeq]
    _ = ((categoriesOf l).map (fun c => (groupFor l c).countP p)).sum :=
        (hc.map _).sum_eq
    _ = l.countP (fun r => p r && decide (r.category ∈ categoriesOf l)) :=
        sum_countP_groups p l (categoriesOf l) (categoriesOf_nodup l)
    _ = l.countP p := countP_cover p l

/-- C8 counterexample: for a log of 4 Critical, 3 Medium, 2 Low and 1 Info
records all in one category, the dashboard summary — computed over the
sampled subset, not the full set — reports total 4 and medium 0 instead of
the claimed total 10 and medium 3 (any valid draw keeps exactly 4 of the
10 records; the `take`-sampler below realizes one such draw). -/
theorem dashboard_summary_sampled_counterexample :
    total_alerts logTenOneCategory = 10 ∧
    critical_alerts logTenOneCategory = 4 ∧
    medium_alerts logTenOneCategory = 3 ∧
    low_alerts logTenOneCategory = 2 ∧
    total_alerts
      (process_alerts takePick (categoriesOf logTenOneCategory) logTenOneCategory 4) = 4 ∧
    medium_alerts
      (process_alerts takePick (categoriesOf logTenOneCategory) logTenOneCategory 4) = 0 := by
  decide

/-- C8 amended: the dashboard summary is computed over the sampled subset
(`process_alerts` with `max_per_category = 4`), not the full log; whenever
every category present holds at most 4 records the sample is a
permutation of the full log, so the summary then equals the full-log
counts — in particular a 4-Critical/3-Medium/2-Low/1-Info log spread so
that no category exceeds 4 reports total 10, critical 4, medium 3, low 2,
severity matched case-insensitively and Info in none of the three named
buckets. -/
theorem dashboard_summary_over_sample (pick : List AlertRecord → Nat → List AlertRecord)
    (catOrder : List String) (l out : List AlertRecord)
    (hp : ValidPick pick) (hc : catOrder.Perm (categoriesOf l))
    (ho : out.Perm (process_alerts pick catOrder l 4))
    (hsmall : ∀ c ∈ categoriesOf l, (groupFor l c).length ≤ 4) :
    total_alerts out = total_alerts l ∧
    critical_alerts out = critical_alerts l ∧
    medium_alerts out = medium_alerts l ∧
    low_alerts out = low_alerts l := by
  have key : ∀ p : AlertRecord → Bool, out.countP p = l.countP p := by
    intro p
    rw [ho.countP_eq p]
    exact process_alerts_countP pick catOrder l 4 hp hc hsmall p
  refine ⟨?_, ?_, ?_, ?_⟩
  · have := key (fun _ => true)
    simpa [total_alerts, List.countP_true] using this
  · have := key (fun r => decide (strLower r.severity = "critical"))
    simpa [critical_alerts, List.countP_eq_length_filter] using this
  · have := key (fun r => decide (strLower r.severity = "medium"))
    simpa [medium_alerts, List.countP_eq_length_filter] using this
  · have := key (fun r => decide (strLower r.severity = "low"))
    simpa [low_alerts, List.countP_eq_length_filter] using this

theorem takePick_valid : ValidPick takePick := by
  intro l n hn
  constructor
  · exact (List.take_sublist n l).subperm
  · simp [takePick, List.length_take]
    omega

/-- C8 amended witness: the spread 4/3/2/1 log, sampled with the concrete
`take` sampler in the dedup category order with an identity final shuffle,
reports total 10, critical 4, medium 3, low 2. -/
theorem dashboard_summary_over_sample_witness :
    (∀ c ∈ categoriesOf logTenSpread, (groupFor logTenSpread c).length ≤ 4) ∧
    total_alerts
      (process_alerts takePick (categoriesOf logTenSpread) logTenSpread 4) = 10 ∧
    critical_alerts
      (process_alerts takePick (categoriesOf logTenSpread) logTenSpread 4) = 4 ∧
    medium_alerts
      (process_alerts takePick (categoriesOf logTenSpread) logTenSpread 4) = 3 ∧
    low_alerts
      (process_alerts takePick (categoriesOf logTenSpread) logTenSpread 4) = 2 := by
  have h := dashboard_summary_over_sample takePick (categoriesOf logTenSpread)
    logTenSpread (process_alerts takePick (categoriesOf logTenSpread) logTenSpread 4)
    takePick_valid (List.Perm.refl _) (List.Perm.refl _) (by decide)
  refine ⟨by decide, ?_, ?_, ?_, ?_⟩
  · rw [h.1]; decide
  · rw [h.2.1]; decide
  · rw [h.2.2.1]; decide
  · rw [h.2.2.2]; decide

theorem sum_ite_single_le (c : String) (m : Nat) :
    ∀ cs : List String, cs.Nodup →
      (cs.map (fun d => if d = c then m else 0)).sum ≤ m := by
  intro cs
  induction cs with
  | nil => intro _; simp
  | cons d cs' ih =>
      intro hnd
      obtain ⟨hdm, hnd'⟩ := List.nodup_cons.mp hnd
      simp only [List.map_cons, List.sum_cons]
      by_cases h1 : d = c
      · subst h1
        have hz : (cs'.map (fun e => if e = d then m else 0)).sum = 0 := by
          apply List.sum_eq_zero
          intro x hx
          obtain ⟨e, he, rfl⟩ := List.mem_map.mp hx
          have hne : e ≠ d := fun h => hdm (h ▸ he)
          simp [hne]
        simp [hz]
      · simp only [if_neg h1, Nat.zero_add]
        exact ih hnd'

theorem mem_pick_category (pick : List AlertRecord → Nat → List AlertRecord)
    (hp : ValidPick pick) (l : List AlertRecord) (c : String) (maxPer : Nat) :
    ∀ r ∈ pick (groupFor l c) (min (groupFor l c).length maxPer), r.category = c := by
  intro r hr
  have hsub :=
    (hp (groupFor l c) (min (groupFor l c).length maxPer) (min_le_left _ _)).1.subset
  have hmem := hsub hr
  exact of_decide_eq_true (List.mem_filter.mp hmem).2

theorem sum_count_groups_le (l : List AlertRecord) (a : AlertRecord) :
    ∀ cs : List String, cs.Nodup →
      (cs.map (fun c => (groupFor l c).count a)).sum ≤ l.count a := by
  intro cs
  induction cs with
  | nil => intro _; simp
  | cons c cs' ih =>
      intro hnd
      obtain ⟨hcm, hnd'⟩ := List.nodup_cons.mp hnd
      simp only [List.map_cons, List.sum_cons]
      by_cases h1 : a.category = c
      · have hhead : (groupFor l c).count a = l.count a := by
          apply List.count_filter
          simp [h1]
        have htail : (cs'.map (fun d => (groupFor l d).count a)).sum = 0 := by
          apply List.sum_eq_zero
          intro x hx
          obtain ⟨d, hd, rfl⟩ := List.mem_map.mp hx
          apply List.count_eq_zero.mpr
          intro hmem
          have hcat : a.category = d := of_decide_eq_true (List.mem_filter.mp hmem).2
          have hcd : c = d := h1.symm.trans hcat
          exact hcm (hcd ▸ hd)
        omega
      · have hhead : (groupFor l c).count a = 0 := by
          apply List.count_eq_zero.mpr
          intro hmem
          exact h1 (of_decide_eq_true (List.mem_filter.mp hmem).2)
        have := ih hnd'
        omega

/-- C10: for every input alert collection, `process_alerts` with
`max_per_category = 4` (or any bound) returns at most that many records
for each category present — fewer if a category has fewer — and the
returned collection, for every valid per-category draw and every final
shuffle, is a sub-multiset of the input: nothing is returned that was not
in the input and nothing more often than it appears there. -/
theorem process_alerts_sampling_bound (pick : List AlertRecord → Nat → List AlertRecord)
    (catOrder : List String) (l : List AlertRecord) (maxPer : Nat)
    (out : List AlertRecord)
    (hp : ValidPick pick) (hc : catOrder.Perm (categoriesOf l))
    (ho : out.Perm (process_alerts pick catOrder l maxPer)) :
    ((categoriesOf l).all (fun c =>
      decide (out.countP (fun r => decide (r.category = c)) ≤ maxPer)) = true) ∧
    (↑out : Multiset AlertRecord) ≤ (↑l : Multiset AlertRecord) := by
  have hcatnodup : catOrder.Nodup := hc.nodup_iff.mpr (categoriesOf_nodup l)
  constructor
  · rw [List.all_eq_true]
    intro c _
    rw [decide_eq_true_eq, ho.countP_eq]
    simp only [process_alerts, List.countP_flatten, List.map_map, Function.comp_def]
    have hterm : ∀ c' ∈ catOrder,
        (pick (groupFor l c') (min (groupFor l c').length maxPer)).countP
            (fun r => decide (r.category = c)) ≤ (if c' = c then maxPer else 0) := by
      intro c' _
      by_cases h1 : c' = c
      · subst h1
        refine le_trans (List.countP_le_length _) ?_
        rw [(hp (groupFor l c') _ (min_le_left _ _)).2]
        simp [min_le_right]
      · have hz : (pick (groupFor l c') (min (groupFor l c').length maxPer)).countP
            (fun r => decide (r.category = c)) = 0 := by
          apply List.countP_eq_zero.mpr
          intro r hr hdec
          have hcat := mem_pick_category pick hp l c' maxPer r hr
          exact h1 (hcat ▸ of_decide_eq_true hdec)
        simp [hz, h1]
    calc (catOrder.map (fun c' =>
            (pick (groupFor l c') (min (groupFor l c').length maxPer)).countP
              (fun r => decide (r.category = c)))).sum
        ≤ (catOrder.map (fun c' => if c' = c then maxPer else 0)).sum :=
          List.sum_le_sum hterm
      _ ≤ maxPer := sum_ite_single_le c maxPer catOrder hcatnodup
  · rw [Multiset.le_iff_count]
    intro a
    rw [Multiset.coe_count, Multiset.coe_count, List.Perm.count_eq ho a]
    simp only [process_alerts, List.count_flatten, List.map_map, Function.comp_def]
    have hterm : ∀ c' ∈ catOrder,
        (pick (groupFor l c') (min (groupFor l c').length maxPer)).count a ≤
          (groupFor l c').count a := by
      intro c' _
      exact (hp (groupFor l c') _ (min_le_left _ _)).1.count_le a
    calc (catOrder.map (fun c' =>
            (pick (groupFor l c') (min (groupFor l c').length maxPer)).count a)).sum
        ≤ (catOrder.map (fun c' => (groupFor l c').count a)).sum :=
          List.sum_le_sum hterm
      _ = ((categoriesOf l).map (fun c' => (groupFor l c').count a)).sum :=
          (hc.map _).sum_eq
      _ ≤ l.count a := sum_count_groups_le l a (categoriesOf l) (categoriesOf_nodup l)

/-- C10 witness: the concrete `take` sampler on the spread ten-record log,
with the dedup category order and an identity final shuffle. -/
theorem process_alerts_sampling_bound_witness :
    ((categoriesOf logTenSpread).all (fun c =>
      decide ((process_alerts takePick (categoriesOf logTenSpread) logTenSpread 4).countP
        (fun r => decide (r.category = c)) ≤ 4)) = true) ∧
    (↑(process_alerts takePick (categoriesOf logTenSpread) logTenSpread 4) :
        Multiset AlertRecord) ≤ (↑logTenSpread : Multiset AlertRecord) :=
  process_alerts_sampling_bound takePick (categoriesOf logTenSpread) logTenSpread 4
    (process_alerts takePick (categoriesOf logTenSpread) logTenSpread 4)
    takePick_valid (List.Perm.refl _) (List.Perm.refl _)
